import Mathlib

/-!
Shallow embedding of the memory-orchestration layer of the
multi-agent-with-openmanus repository: the `MemoryManager`,
`MemoryRetrieval`, `VectorDatabase` and `GraphDatabase` classes under
`src/knowledge/`, and the extraction pipeline in
`src/agents/knowledge_agent.py`.

External collaborators (Neo4j, ChromaDB, the LLM extraction service,
`json.loads`) are modelled either as an ideal in-memory store
(`GraphState`, `VecState`) or as oracle function parameters.  Python
keyword-argument binding is modelled explicitly, because several call
sites in the repository pass keyword names that the callee does not
declare, which in Python raises a `TypeError` before the callee body
runs.
-/

namespace OpenManus

/-- Scalar metadata / property values, as stored by ChromaDB metadata
dictionaries and Neo4j node properties in this repository: strings,
numbers, or Python `None`. -/
inductive Val
  | str (s : String)
  | num (n : Nat)
  | null
  deriving DecidableEq

/-- Python truthiness of a `Val`: empty string, zero and `None` are
falsy. -/
def Val.truthy : Val → Bool
  | .str s => s ≠ ""
  | .num n => n ≠ 0
  | .null => false

/-- A metadata dictionary (ChromaDB document metadata). -/
abbrev Metadata := List (String × Val)

/-- Python truthiness of an optional list-valued argument: `None` and
the empty list are falsy. -/
def listTruthy {α : Type} : Option (List α) → Bool
  | none => false
  | some l => !l.isEmpty

/-- Evaluation of the Python expression `source or "agent"` used in
`MemoryManager.store_fact` (memory.py lines 63 and 85): a `None` or
empty source falls back to `"agent"`. -/
def orAgent : Option String → String
  | none => "agent"
  | some s => if s = "" then "agent" else s

/-- Python exceptions that matter for this embedding. -/
inductive PyErr
  | typeError (msg : String)
  | valueError (msg : String)
  deriving DecidableEq

/-- Python `int(v)` applied to a metadata value: numbers convert,
numeric strings parse, non-numeric strings raise `ValueError`, `None`
raises `TypeError`. -/
def pyInt : Val → Except PyErr Nat
  | .num n => .ok n
  | .str s =>
      match s.toNat? with
      | some n => .ok n
      | none => .error (.valueError "invalid literal for int")
  | .null => .error (.typeError "int argument must not be NoneType")

/-- Python call semantics: a call binds only if every keyword-argument
name supplied at the call site is among the formal parameter names of
the callee; otherwise the interpreter raises
`TypeError: unexpected keyword argument` before the body runs. -/
def kwargsBind (params kwargs : List String) : Bool :=
  kwargs.all (fun k => params.contains k)

/-- The `TypeError` raised when keyword binding fails. -/
def kwErr : PyErr := .typeError "unexpected keyword argument"

namespace VectorDatabase

/-- The formal parameter names of `VectorDatabase.query`
(vector_db.py line 101): `query_text`, `n_results`,
`filter_metadata`. -/
def queryParams : List String := ["query_text", "n_results", "filter_metadata"]

/-- The formal parameter names of `VectorDatabase.delete`
(vector_db.py line 140): `ids`, `filter_metadata`. -/
def deleteParams : List String := ["ids", "filter_metadata"]

end VectorDatabase

/-- One document held by the vector store: id, text, metadata. -/
structure VDoc where
  id : String
  document : String
  metadata : Metadata
  deriving DecidableEq

/-- The vector store contents. -/
abbrev VecState := List VDoc

/-- ChromaDB equality-filter matching: a document matches when every
key/value pair of the filter occurs in its metadata. -/
def metaMatches (filter : Metadata) (m : Metadata) : Bool :=
  filter.all (fun kv => m.contains kv)

/-- `VectorDatabase.delete` (vector_db.py lines 140-165) over the
in-memory store model.  The source reads
`if ids: ... elif filter_metadata: ... else: return False`, so under
Python truthiness an absent argument, `None`, an empty id list or an
empty filter dictionary all fall through to `return False` with no
deletion performed. -/
def VectorDatabase.delete (st : VecState) (ids : Option (List String))
    (filter_metadata : Option Metadata) : VecState × Bool :=
  if listTruthy ids then
    (st.filter (fun d => !(ids.getD []).contains d.id), true)
  else if listTruthy filter_metadata then
    (st.filter (fun d => !metaMatches (filter_metadata.getD []) d.metadata), true)
  else
    (st, false)

/-- A node of the ideal graph store: physical id, labels,
properties. -/
structure GNode where
  id : Nat
  labels : List String
  props : List (String × Val)
  deriving DecidableEq

/-- A relationship of the ideal graph store. -/
structure GRel where
  src : Nat
  dst : Nat
  typ : String
  deriving DecidableEq

/-- The ideal graph store: node list, relationship list, and the next
free physical node id (Neo4j assigns ids starting from 0 in a fresh
store). -/
structure GraphState where
  nodes : List GNode
  rels : List GRel
  nextId : Nat
  deriving DecidableEq

def GraphState.empty : GraphState := ⟨[], [], 0⟩

/-- `GraphDatabase.create_node` (graph_db.py lines 54-80) under the
ideal adapter where the Neo4j call succeeds: the new node receives
the next free id. -/
def createNode (st : GraphState) (labels : List String)
    (props : List (String × Val)) : GraphState × Nat :=
  (⟨st.nodes ++ [⟨st.nextId, labels, props⟩], st.rels, st.nextId + 1⟩, st.nextId)

/-- `GraphDatabase.create_relationship` (graph_db.py lines 82-114)
under the ideal adapter. -/
def createRelationship (st : GraphState) (a b : Nat) (typ : String) : GraphState :=
  ⟨st.nodes, st.rels ++ [⟨a, b, typ⟩], st.nextId⟩

/-- Look up a property of a node. -/
def GNode.prop (n : GNode) (k : String) : Option Val :=
  n.props.lookup k

/-- The numeric `order` property of a node, defaulting to 0. -/
def GNode.orderVal (n : GNode) : Nat :=
  match n.props.lookup "order" with
  | some (.num k) => k
  | _ => 0

/-- A message dictionary passed to `store_conversation`: the source
reads each field with `message.get(key, default)`, so every field may
be absent. -/
structure MsgIn where
  role : Option String
  content : Option String
  timestamp : Option String
  deriving DecidableEq

/-- `message.get("role", "unknown")` (memory.py line 122). -/
def MsgIn.roleD (m : MsgIn) : String := m.role.getD "unknown"

/-- `message.get("content", "")` (memory.py line 123). -/
def MsgIn.contentD (m : MsgIn) : String := m.content.getD ""

/-- Python `enumerate(xs)` starting at index `i`. -/
def pyEnumerate {α : Type} : Nat → List α → List (Nat × α)
  | _, [] => []
  | i, a :: as => (i, a) :: pyEnumerate (i + 1) as

/-- One iteration of the message loop in
`MemoryManager.store_conversation` (memory.py lines 120-133): create a
`Message` node carrying role, content, timestamp and the zero-based
`order` index, then link it from the conversation node via a
`CONTAINS` relationship — but only under the truthiness guard
`if message_node_id and conversation_node_id:` at line 130, which
treats node id 0 as falsy, so no link is created when either node
received id 0. -/
def storeMsgStep (cid : Nat) (now : String) (st : GraphState)
    (im : Nat × MsgIn) : GraphState :=
  let p := createNode st ["Message"]
    [("role", .str im.2.roleD), ("content", .str im.2.contentD),
     ("timestamp", .str (im.2.timestamp.getD now)), ("order", .num im.1)]
  if p.2 ≠ 0 ∧ cid ≠ 0 then createRelationship p.1 cid p.2 "CONTAINS" else p.1

/-- The graph-write part of `MemoryManager.store_conversation`
(memory.py lines 109-133) under the ideal graph adapter: create the
`Conversation` node, then the `Message` nodes in input order, linking
each to the conversation only when both ids are truthy (nonzero), per
the guard at line 130.  Returns the updated graph and the conversation
node id. -/
def storeConversationGraph (st : GraphState) (messages : List MsgIn)
    (context : Option String) (metadata : Metadata) (now : String) :
    GraphState × Nat :=
  let p := createNode st ["Conversation"]
    ([("timestamp", .str now), ("context", .str (context.getD ""))] ++ metadata)
  ((pyEnumerate 0 messages).foldl (storeMsgStep p.2 now) p.1, p.2)

/-- The vector-mirror part of `MemoryManager.store_conversation`
(memory.py lines 137-149): the messages joined as `"role: content"`
lines become one document. -/
def conversationJoin (messages : List MsgIn) : String :=
  String.intercalate "\n" (messages.map (fun m => m.roleD ++ ": " ++ m.contentD))

/-- The arguments of one `VectorDatabase.add_documents` call, i.e. the
request the orchestrator hands to the vector store.  Python allows
`None` inside the id list (memory.py line 89 passes `[None]` when the
graph write failed), hence `Option String`. -/
structure AddRequest where
  documents : List String
  metadatas : List Metadata
  ids : List (Option String)
  deriving DecidableEq

/-- A related-entity dictionary passed to `store_fact`; fields are read
with `.get`, so they may be absent. -/
structure EntityIn where
  name : Option String
  typ : Option String
  propsJson : String
  deriving DecidableEq

/-- One iteration of the related-entity loop in
`MemoryManager.store_fact` (memory.py lines 70-78): create a node
labelled with the entity type (default `"Entity"`) and link the fact
to it via `MENTIONS`. -/
def storeEntityStep (fid : Nat) (st : GraphState) (e : EntityIn) : GraphState :=
  let p := createNode st [e.typ.getD "Entity"]
    [("name", match e.name with | some s => .str s | none => .null),
     ("properties", .str e.propsJson)]
  createRelationship p.1 fid p.2 "MENTIONS"

/-- The outcome of `MemoryManager.store_fact`: the updated graph
state, the request handed to `VectorDatabase.add_documents`, and the
returned value (the graph node id, or `None`). -/
structure StoreFactResult where
  graph : GraphState
  req : AddRequest
  ret : Option Nat
  deriving DecidableEq

/-- `MemoryManager.store_fact` (memory.py lines 44-92).  `graphOk`
models whether the external Neo4j call inside
`GraphDatabase.create_node` succeeds (on failure that method returns
`None`).  The entity loop runs only when `related_entities` and
`fact_node_id` are both truthy; the vector mirror uses the Python
conditionals `str(fact_node_id) if fact_node_id else None` and
`f"fact_..." if fact_node_id else None`, which treat node id 0 as
falsy.  The call returns `fact_node_id` without consulting the result
of `add_documents`. -/
def store_fact (st : GraphState) (graphOk : Bool) (fact : String)
    (source : Option String) (related : Option (List EntityIn))
    (now : String) : StoreFactResult :=
  let p := if graphOk then
      let q := createNode st ["Fact"]
        [("content", .str fact), ("timestamp", .str now),
         ("source", .str (orAgent source))]
      (q.1, some q.2)
    else (st, none)
  let st2 := match p.2, related with
    | some fid, some ents =>
        if fid ≠ 0 ∧ ¬ ents.isEmpty then ents.foldl (storeEntityStep fid) p.1 else p.1
    | _, _ => p.1
  let gidVal : Val := match p.2 with
    | some fid => if fid ≠ 0 then .str (toString fid) else .null
    | none => .null
  let docId : Option String := match p.2 with
    | some fid => if fid ≠ 0 then some ("fact_" ++ toString fid) else none
    | none => none
  { graph := st2
    req :=
      { documents := [fact]
        metadatas := [[("type", .str "fact"), ("source", .str (orAgent source)),
                       ("timestamp", .str now), ("graph_id", gidVal)]]
        ids := [docId] }
    ret := p.2 }

/-- Ordered insertion by the `order` property, the helper of
`sortByOrder`. -/
def insertByOrder (n : GNode) : List GNode → List GNode
  | [] => [n]
  | m :: rest =>
      if n.orderVal ≤ m.orderVal then n :: m :: rest else m :: insertByOrder n rest

/-- Insertion sort by the `order` property, the `ORDER BY m.order`
clause of the traversal query. -/
def sortByOrder : List GNode → List GNode
  | [] => []
  | n :: rest => insertByOrder n (sortByOrder rest)

/-- Whether a `CONTAINS` relationship from `cid` to `nid` exists. -/
def hasContains (rels : List GRel) (cid nid : Nat) : Bool :=
  rels.any (fun r => r.src == cid && r.dst == nid && r.typ == "CONTAINS")

/-- Interpretation on the ideal graph of the Cypher query issued at
memory.py line 185:
`MATCH (c:Conversation)-[:CONTAINS]->(m:Message) WHERE id(c) = $id RETURN m ORDER BY m.order`.
The pattern matches only when node `cid` exists with label
`Conversation`; the returned `Message` nodes are sorted by their
`order` property. -/
def containsMessagesOrdered (st : GraphState) (cid : Nat) : List GNode :=
  if st.nodes.any (fun c => c.id == cid && c.labels.contains "Conversation") then
    sortByOrder (st.nodes.filter (fun n =>
      n.labels.contains "Message" && hasContains st.rels cid n.id))
  else []

/-- Interpretation on the ideal graph of the Cypher query issued at
memory.py line 178:
`MATCH (f:Fact)-[:MENTIONS]->(e) WHERE id(f) = $id RETURN e`. -/
def factMentions (st : GraphState) (fid : Nat) : List GNode :=
  if st.nodes.any (fun f => f.id == fid && f.labels.contains "Fact") then
    st.nodes.filter (fun e =>
      st.rels.any (fun r => r.src == fid && r.dst == e.id && r.typ == "MENTIONS"))
  else []

/-- One formatted hit returned by `VectorDatabase.query`
(vector_db.py lines 126-133): document text, metadata and id.  The
similarity ranking itself is external to the repository, so retrieval
operations take the search as an oracle `String → Nat → List QHit`
(query text and `n_results` to ranked hits). -/
structure QHit where
  document : String
  metadata : Metadata
  id : String
  deriving DecidableEq

/-- An enhanced result of `retrieve_relevant_memories`: the vector hit
plus the optional `related_entities` / `messages` fields assigned at
memory.py lines 181 and 188 (the graph rows are modelled by the nodes
they carry). -/
structure Rec where
  hit : QHit
  related_entities : Option (List GNode)
  messages : Option (List GNode)
  deriving DecidableEq

/-- The enhancement step of `MemoryManager.retrieve_relevant_memories`
(memory.py lines 171-190) for one hit: when the hit's metadata carries
a truthy `graph_id` and its `type` is `"fact"` or `"conversation"`,
run the corresponding graph query on `int(graph_id)`; `int` raising on
a non-numeric id propagates (there is no `try` in the source). -/
def enhance (gst : GraphState) (r : QHit) : Except PyErr Rec :=
  match r.metadata.lookup "graph_id" with
  | some gid =>
      if gid.truthy then
        if r.metadata.lookup "type" == some (.str "fact") then
          match pyInt gid with
          | .ok n => .ok ⟨r, some (factMentions gst n), none⟩
          | .error e => .error e
        else if r.metadata.lookup "type" == some (.str "conversation") then
          match pyInt gid with
          | .ok n => .ok ⟨r, none, some (containsMessagesOrdered gst n)⟩
          | .error e => .error e
        else .ok ⟨r, none, none⟩
      else .ok ⟨r, none, none⟩
  | none => .ok ⟨r, none, none⟩

/-- Enhancement of every hit in order, propagating the first raised
exception (the loop at memory.py lines 171-190). -/
def enhanceAll (gst : GraphState) : List QHit → Except PyErr (List Rec)
  | [] => .ok []
  | h :: t =>
      match enhance gst h with
      | .error e => .error e
      | .ok r =>
          match enhanceAll gst t with
          | .error e => .error e
          | .ok rs => .ok (r :: rs)

/-- `MemoryManager.retrieve_relevant_memories` (memory.py lines
153-192).  `connected` models the `initialized`/`initialize()` guard;
the vector search `self.vector_db.query(query, n_results=limit)` binds
correctly (positional `query_text` plus the declared keyword
`n_results`) and is the oracle `vq`. -/
def retrieve_relevant_memories (connected : Bool) (gst : GraphState)
    (vq : String → Nat → List QHit) (query : String) (limit : Nat) :
    Except PyErr (List Rec) :=
  if !connected then .ok []
  else enhanceAll gst (vq query limit)

/-- The loop body of `MemoryManager.categorize_memories` (memory.py
lines 230-235): append to the `facts` bucket when the metadata type is
`"fact"`, to `conversations` when it is `"conversation"`, and drop the
record otherwise. -/
def categorizeStep (acc : List Rec × List Rec) (m : Rec) : List Rec × List Rec :=
  if m.hit.metadata.lookup "type" == some (.str "fact") then
    (acc.1 ++ [m], acc.2)
  else if m.hit.metadata.lookup "type" == some (.str "conversation") then
    (acc.1, acc.2 ++ [m])
  else acc

/-- `MemoryManager.categorize_memories` (memory.py lines 209-237):
retrieve with the fixed internal limit 10, then partition. -/
def categorize_memories (connected : Bool) (gst : GraphState)
    (vq : String → Nat → List QHit) (query : String) :
    Except PyErr (List Rec × List Rec) :=
  if !connected then .ok ([], [])
  else
    match retrieve_relevant_memories connected gst vq query 10 with
    | .error e => .error e
    | .ok memories => .ok (memories.foldl categorizeStep ([], []))

/-- `MemoryManager.get_entity_information` (memory.py lines 239-278)
on the ideal graph: exact-name lookup, then the reverse `MENTIONS`
traversal collecting `Fact` nodes about that entity. -/
def get_entity_information (connected : Bool) (gst : GraphState)
    (entity_name : String) : Option GNode × List GNode :=
  if !connected then (none, [])
  else
    match gst.nodes.filter (fun e => e.prop "name" == some (.str entity_name)) with
    | [] => (none, [])
    | e :: _ =>
        (some e,
         gst.nodes.filter (fun f => f.labels.contains "Fact" &&
           gst.rels.any (fun r => r.src == f.id && r.typ == "MENTIONS" &&
             (gst.nodes.any (fun n => n.id == r.dst &&
               n.prop "name" == some (.str entity_name))))))

/-- `MemoryRetrieval.retrieve_by_entity_type` (memory_retrieval.py
lines 19-39) on the ideal graph:
`MATCH (e:T) RETURN e LIMIT limit`. -/
def retrieve_by_entity_type (connected : Bool) (gst : GraphState)
    (entity_type : String) (limit : Nat) : List GNode :=
  if !connected then []
  else (gst.nodes.filter (fun e => e.labels.contains entity_type)).take limit

/-- A value inside the ChromaDB-style `where` clause built by
`retrieve_recent_memories`: either an equality constraint or the
`$gt` (strictly-greater-than) operator object. -/
inductive WhereVal
  | eq (v : Val)
  | gt (s : String)
  deriving DecidableEq

/-- The `where_clause` built at memory_retrieval.py lines 91-93:
`timestamp $gt threshold`, plus a `type` equality when a memory type
is given. -/
def recentWhere (threshold : String) (memory_type : Option String) :
    List (String × WhereVal) :=
  let w := [("timestamp", WhereVal.gt threshold)]
  match memory_type with
  | some t => w ++ [("type", WhereVal.eq (.str t))]
  | none => w

/-- `MemoryRetrieval.retrieve_recent_memories` (memory_retrieval.py
lines 72-99).  `threshold` stands for the externally computed
`(datetime.now() - timedelta(days=days)).isoformat()`.  The vector
search call at lines 95-99 passes the keyword names `query`, `where`
and `n_results`; `VectorDatabase.query` declares `query_text`,
`n_results` and `filter_metadata`, so Python keyword binding fails and
a `TypeError` propagates (there is no `try` in this method). -/
def retrieve_recent_memories (connected : Bool)
    (vq : String → List (String × WhereVal) → Nat → List VDoc)
    (threshold : String) (memory_type : Option String) (limit : Nat) :
    Except PyErr (List VDoc) :=
  if !connected then .ok []
  else
    let where_clause := recentWhere threshold memory_type
    if kwargsBind VectorDatabase.queryParams ["query", "where", "n_results"] then
      .ok (vq "" where_clause limit)
    else .error kwErr

/-- `MemoryRetrieval.retrieve_memories_by_source` (memory_retrieval.py
lines 102-120).  The vector search call at lines 116-120 passes the
keyword names `query`, `where` and `n_results`, which
`VectorDatabase.query` does not declare, so Python keyword binding
fails and a `TypeError` propagates. -/
def retrieve_memories_by_source (connected : Bool)
    (vq : String → Metadata → Nat → List VDoc)
    (source : String) (limit : Nat) : Except PyErr (List VDoc) :=
  if !connected then .ok []
  else
    if kwargsBind VectorDatabase.queryParams ["query", "where", "n_results"] then
      .ok (vq "" [("source", .str source)] limit)
    else .error kwErr

/-- `MemoryRetrieval.retrieve_related_facts` (memory_retrieval.py
lines 122-153): look up the fact by id in the graph
(`MATCH (f:Fact) WHERE id(f) = $id RETURN f`), read its content with
`.get("content", "")`, then run the vector search with `n_results =
limit + 1` and drop the first hit.  The vector search call at lines
149-153 passes the keyword names `query`, `where` and `n_results`,
which `VectorDatabase.query` does not declare, so Python keyword
binding fails and a `TypeError` propagates. -/
def retrieve_related_facts (connected : Bool) (gst : GraphState)
    (vq : String → Metadata → Nat → List VDoc)
    (fact_id : Nat) (limit : Nat) : Except PyErr (List VDoc) :=
  if !connected then .ok []
  else
    match gst.nodes.filter (fun n => n.labels.contains "Fact" && n.id == fact_id) with
    | [] => .ok []
    | f :: _ =>
        let fact_content := match f.prop "content" with
          | some (.str s) => s
          | _ => ""
        if kwargsBind VectorDatabase.queryParams ["query", "where", "n_results"] then
          .ok ((vq fact_content [("type", .str "fact")] (limit + 1)).drop 1)
        else .error kwErr

/-- `DETACH DELETE` of every node carrying a label, on the ideal
graph: the nodes go away together with every relationship touching
them. -/
def detachDeleteLabel (gst : GraphState) (label : String) : GraphState :=
  let keep := gst.nodes.filter (fun n => !n.labels.contains label)
  ⟨keep,
   gst.rels.filter (fun r =>
     keep.any (fun n => n.id == r.src) && keep.any (fun n => n.id == r.dst)),
   gst.nextId⟩

/-- `MemoryManager.clear_memory` (memory.py lines 280-312).  The whole
body sits in one `try`.  Its first statement calls
`self.vector_db.delete(where=...)`, but `VectorDatabase.delete`
declares the parameters `ids` and `filter_metadata`, so Python keyword
binding fails with a `TypeError` before any deletion; the `except` at
line 310 catches it and returns `False`, leaving both stores
untouched and never reaching the graph deletions.  The bound branch
carries the deletions as written for the hypothetical matching
signature. -/
def clear_memory (connected : Bool) (gst : GraphState) (vst : VecState)
    (memory_type : Option String) : GraphState × VecState × Bool :=
  if !connected then (gst, vst, false)
  else
    if kwargsBind VectorDatabase.deleteParams ["where"] then
      let vst' := (VectorDatabase.delete vst none
        (some (match memory_type with
               | some t => [("type", .str t)]
               | none => []))).1
      let gst' := match memory_type with
        | some "fact" => detachDeleteLabel gst "Fact"
        | some "conversation" => detachDeleteLabel gst "Conversation"
        | some _ => gst
        | none => ⟨[], [], gst.nextId⟩
      (gst', vst', true)
    else (gst, vst, false)

/-- Python `s.lower()`. -/
def pyLower (s : String) : String := s.toLower

/-- Whether `needle` occurs as a contiguous run inside `hay`. -/
def substrAux (needle : List Char) : List Char → Bool
  | [] => needle.isEmpty
  | c :: cs => needle.isPrefixOf (c :: cs) || substrAux needle cs

/-- Python substring containment `needle in hay` for strings. -/
def pySubstr (needle hay : String) : Bool := substrAux needle.data hay.data

/-- An entity object parsed from the extraction-service response in
`knowledge_agent` (knowledge_agent.py line 76): the linking loop reads
`entity["name"]`. -/
structure JEntity where
  name : String
  typ : String
  deriving DecidableEq

/-- A fact object parsed from the extraction-service response in
`knowledge_agent` (knowledge_agent.py line 84): the loop reads
`fact["content"]`. -/
structure JFact where
  content : String
  deriving DecidableEq

/-- The inner linking loop of `knowledge_agent` (knowledge_agent.py
lines 88-92): starting from an empty list, append each extracted
entity whose lowercased name occurs inside the lowercased fact
content. -/
def relatedEntitiesFor (entities : List JEntity) (fact : JFact) : List JEntity :=
  entities.foldl (fun related entity =>
    if pySubstr (pyLower entity.name) (pyLower fact.content) then
      related ++ [entity]
    else related) []

/-- The extraction-and-storage section of `knowledge_agent`
(knowledge_agent.py lines 74-100).  `parseE`/`parseF` are
`json.loads` on the two service responses, modelled as oracles that
either produce the parsed objects or fail (raise); each `json.loads`
sits in its own `try`, whose `except` sets `entities = []`
respectively skips the whole fact-storage loop.  Returns the entity
list the pipeline ends up with and the list of `store_fact` calls it
makes, each as (content, source, related entities); `store_fact`
itself never raises (both adapters catch internally). -/
def extractionPipeline (parseE : String → Option (List JEntity))
    (parseF : String → Option (List JFact))
    (entityResp factResp : String) :
    List JEntity × List (String × String × List JEntity) :=
  let entities := match parseE entityResp with
    | some es => es
    | none => []
  let stores := match parseF factResp with
    | some facts =>
        facts.map (fun f => (f.content, "conversation", relatedEntitiesFor entities f))
    | none => []
  (entities, stores)

/-- The first metadata dictionary of an `add_documents` request
(`store_fact` always sends exactly one document), looked up at a
key. -/
def StoreFactResult.meta0 (r : StoreFactResult) (k : String) : Option Val :=
  ((r.req.metadatas.head?).getD []).lookup k

/-- The `Message` node that `store_conversation` creates for the
message at zero-based position `i`, receiving physical id `id`. -/
def msgNode (now : String) (i id : Nat) (m : MsgIn) : GNode :=
  ⟨id, ["Message"],
   [("role", .str m.roleD), ("content", .str m.contentD),
    ("timestamp", .str (m.timestamp.getD now)), ("order", .num i)]⟩

/-- The `Message` nodes created for a message list, orders starting at
`i` and physical ids at `id`. -/
def msgNodesFrom (now : String) : Nat → Nat → List MsgIn → List GNode
  | _, _, [] => []
  | i, id, m :: ms => msgNode now i id m :: msgNodesFrom now (i + 1) (id + 1) ms

/-- The `CONTAINS` relationships created for a message list, message
ids starting at `id`. -/
def msgRelsFrom (cid : Nat) : Nat → List MsgIn → List GRel
  | _, [] => []
  | id, _ :: ms => ⟨cid, id, "CONTAINS"⟩ :: msgRelsFrom cid (id + 1) ms

/-- The predicate `categorize_memories` uses for the `facts` bucket:
metadata type equals `"fact"`. -/
def isFactRec (m : Rec) : Bool :=
  m.hit.metadata.lookup "type" == some (.str "fact")

/-- The predicate `categorize_memories` uses for the `conversations`
bucket: metadata type equals `"conversation"`. -/
def isConvRec (m : Rec) : Bool :=
  m.hit.metadata.lookup "type" == some (.str "conversation")

/-! Concrete fixtures used by closed theorems. -/

/-- A vector hit whose metadata type is neither `"fact"` nor
`"conversation"`. -/
def entityHit : QHit := ⟨"stray document", [("type", .str "entity")], "stray_1"⟩

/-- A similarity oracle that returns exactly that one stray hit. -/
def vqEntityOnly : String → Nat → List QHit := fun _ _ => [entityHit]

/-- A two-message conversation fixture. -/
def msgsFixture : List MsgIn :=
  [⟨some "user", some "hi there", none⟩,
   ⟨some "assistant", some "hello", none⟩]

/-- A graph holding one `Fact` node with id 0, as left by the first
successful `store_fact` on a fresh store. -/
def gstOneFact : GraphState :=
  ⟨[⟨0, ["Fact"],
     [("content", .str "OpenManus is an agent framework"),
      ("timestamp", .str "t0"), ("source", .str "test")]⟩], [], 1⟩

/-- A vector store holding the mirror document of that fact. -/
def vstOneFact : VecState :=
  [⟨"fact_0", "OpenManus is an agent framework",
    [("type", .str "fact"), ("source", .str "test"),
     ("timestamp", .str "t0"), ("graph_id", .str "0")]⟩]

/-! Theorems about the claims. -/

/-- C10: calling `VectorDatabase.delete` with no document ids and no
non-empty metadata filter (each argument absent, `None`, or empty)
deletes nothing and returns `False`; wholesale deletion through this
method needs an explicit non-empty id list or filter. -/
theorem claim10_delete_requires_selector (st : VecState)
    (ids : Option (List String)) (fm : Option Metadata)
    (hi : listTruthy ids = false) (hf : listTruthy fm = false) :
    VectorDatabase.delete st ids fm = (st, false) := by
  simp [VectorDatabase.delete, hi, hf]

/-- Witness for C10 at a concrete store, with `ids = None` and an
empty filter dictionary. -/
theorem claim10_delete_requires_selector_witness :
    listTruthy (none : Option (List String)) = false ∧
    listTruthy (some ([] : Metadata)) = false ∧
    VectorDatabase.delete vstOneFact none (some []) = (vstOneFact, false) :=
  ⟨rfl, rfl, claim10_delete_requires_selector vstOneFact none (some []) rfl rfl⟩

/-- C1 (code bug): `retrieve_memories_by_source` never degrades to an
empty list — on an initialized manager it raises `TypeError`
unconditionally, because the call at memory_retrieval.py lines
116-120 passes the keyword names `query` and `where`, which
`VectorDatabase.query` (parameters `query_text`, `n_results`,
`filter_metadata`) does not declare. -/
theorem claim1_by_source_raises_typeerror
    (vq : String → Metadata → Nat → List VDoc) (source : String) (limit : Nat) :
    retrieve_memories_by_source true vq source limit = .error kwErr := rfl

/-- C4 (code bug): `retrieve_recent_memories` never reaches the
timestamp filter — on an initialized manager it raises `TypeError`
unconditionally for every memory type, threshold and limit, because
the call at memory_retrieval.py lines 95-99 passes the keyword names
`query` and `where`, which `VectorDatabase.query` does not declare.
The strict `$gt` where-clause of the claim is built (see
`recentWhere`) but never handed to the store. -/
theorem claim4_recent_raises_typeerror
    (vq : String → List (String × WhereVal) → Nat → List VDoc)
    (threshold : String) (memory_type : Option String) (limit : Nat) :
    retrieve_recent_memories true vq threshold memory_type limit = .error kwErr := by
  cases memory_type <;> rfl

/-- C3 (code bug): `retrieve_related_facts`, run with the id of a
stored fact, raises `TypeError` instead of issuing the semantic query,
because the call at memory_retrieval.py lines 149-153 passes the
keyword names `query` and `where`, which `VectorDatabase.query` does
not declare.  Evaluated here at a store holding exactly one fact with
id 0. -/
theorem claim3_related_facts_raises_typeerror
    (vq : String → Metadata → Nat → List VDoc) (limit : Nat) :
    retrieve_related_facts true gstOneFact vq 0 limit = .error kwErr := rfl

/-- C2 (code bug): `clear_memory` deletes nothing.  Its first
statement calls `self.vector_db.delete(where=...)`, but
`VectorDatabase.delete` declares `ids` and `filter_metadata`, so the
call raises `TypeError`, the surrounding `except` returns `False`, and
the graph deletions are never reached.  On a store holding one fact,
`clear_memory("fact")` and `clear_memory()` both leave both stores
unchanged, and `retrieve_by_entity_type("Fact")` still returns the
fact afterwards. -/
theorem claim2_clear_memory_deletes_nothing :
    clear_memory true gstOneFact vstOneFact (some "fact")
      = (gstOneFact, vstOneFact, false) ∧
    clear_memory true gstOneFact vstOneFact none
      = (gstOneFact, vstOneFact, false) ∧
    retrieve_by_entity_type true
      (clear_memory true gstOneFact vstOneFact (some "fact")).1 "Fact" 10 ≠ [] := by
  refine ⟨rfl, rfl, ?_⟩
  decide

/-- C8: when `json.loads` fails on both extraction-service responses
(e.g. the literal string `"not json"`), the pipeline ends with zero
entities, performs zero `store_fact` calls, and returns normally (the
embedding is total: both parse sites sit in `try` blocks whose
handlers produce the empty outcome). -/
theorem claim8_parse_failure_yields_nothing
    (parseE : String → Option (List JEntity))
    (parseF : String → Option (List JFact)) (resp : String)
    (hE : parseE resp = none) (hF : parseF resp = none) :
    extractionPipeline parseE parseF resp resp = ([], []) := by
  simp [extractionPipeline, hE, hF]

/-- Witness for C8: a parser on which the literal response
`"not json"` fails to parse. -/
theorem claim8_parse_failure_yields_nothing_witness :
    (fun _ : String => (none : Option (List JEntity))) "not json" = none ∧
    (fun _ : String => (none : Option (List JFact))) "not json" = none ∧
    extractionPipeline (fun _ => none) (fun _ => none) "not json" "not json"
      = ([], []) :=
  ⟨rfl, rfl,
   claim8_parse_failure_yields_nothing (fun _ => none) (fun _ => none)
     "not json" rfl rfl⟩

/-- The executable substring check agrees with list-infix
containment. -/
theorem substrAux_iff_infix (needle hay : List Char) :
    substrAux needle hay = true ↔ needle <:+: hay := by
  induction hay with
  | nil =>
      simp [substrAux, List.isEmpty_iff, List.infix_nil]
  | cons c cs ih =>
      simp only [substrAux, Bool.or_eq_true, List.isPrefixOf_iff_prefix, ih,
        List.infix_cons_iff]

/-- The entity-linking loop, characterised as a filter. -/
theorem relatedEntitiesFor_eq_filter (entities : List JEntity) (f : JFact) :
    relatedEntitiesFor entities f =
      entities.filter (fun e => pySubstr (pyLower e.name) (pyLower f.content)) := by
  unfold relatedEntitiesFor
  suffices h : ∀ acc : List JEntity,
      entities.foldl (fun related entity =>
        if pySubstr (pyLower entity.name) (pyLower f.content) then
          related ++ [entity]
        else related) acc =
      acc ++ entities.filter (fun e => pySubstr (pyLower e.name) (pyLower f.content)) by
    simpa using h []
  induction entities with
  | nil => intro acc; simp
  | cons a as ih =>
      intro acc
      by_cases h : pySubstr (pyLower a.name) (pyLower f.content)
      · simp [List.foldl_cons, List.filter_cons, h, ih]
      · simp [List.foldl_cons, List.filter_cons, h, ih]

/-- C9: the pipeline links an extracted entity to an extracted fact
(passes it as a related entity to `store_fact`) exactly when the
entity's lowercased name occurs as a contiguous substring of the
fact's lowercased content. -/
theorem claim9_linking_iff_lowercase_substring
    (entities : List JEntity) (f : JFact) (e : JEntity) :
    e ∈ relatedEntitiesFor entities f ↔
      e ∈ entities ∧ (pyLower e.name).data <:+: (pyLower f.content).data := by
  rw [relatedEntitiesFor_eq_filter, List.mem_filter, pySubstr,
    substrAux_iff_infix]

/-- C6 (counterexample): the very first fact stored on a fresh store
receives graph node id 0, which Python truthiness treats as falsy, so
the mirror document is sent with id `None` and metadata `graph_id`
`None` instead of `"fact_0"` and `"0"`; and a fact stored with the
empty source string is mirrored with source `"agent"`, not the given
source. -/
theorem claim6_store_fact_counterexample :
    (store_fact GraphState.empty true "OpenManus is an agent framework"
        (some "test") none "t0").ret = some 0 ∧
    (store_fact GraphState.empty true "OpenManus is an agent framework"
        (some "test") none "t0").req.ids ≠ [some ("fact_" ++ toString 0)] ∧
    (store_fact GraphState.empty true "OpenManus is an agent framework"
        (some "test") none "t0").meta0 "graph_id" ≠ some (Val.str (toString 0)) ∧
    (store_fact ⟨[], [], 1⟩ true "a fact" (some "") none "t1").meta0 "source"
      = some (Val.str "agent") ∧
    (store_fact ⟨[], [], 1⟩ true "a fact" (some "") none "t1").meta0 "source"
      ≠ some (Val.str "") := by
  refine ⟨rfl, ?_, ?_, ?_, ?_⟩ <;> decide

/-- C6 (amended): `store_fact` returns the graph node id exactly when
graph node creation succeeds and `None` when it fails, independent of
the vector mirror outcome (the source never consults the
`add_documents` result); on success, the single mirror document
carries the fact text with metadata type `"fact"`, the timestamp, the
given source when it is non-empty and `"agent"` when the source is
empty or absent, and — whenever the graph id is nonzero — metadata
`graph_id` equal to the stringified id under document id
`"fact_" ++ id`, while a graph id of 0 (falsy in Python) yields
`graph_id` `None` and document id `None`. -/
theorem claim6_store_fact_amended (st : GraphState) (graphOk : Bool)
    (fact : String) (source : Option String)
    (related : Option (List EntityIn)) (now : String) :
    (store_fact st graphOk fact source related now).ret
      = (if graphOk then some st.nextId else none) ∧
    (store_fact st graphOk fact source related now).req.documents = [fact] ∧
    (store_fact st graphOk fact source related now).meta0 "type"
      = some (Val.str "fact") ∧
    (∀ s : String, source = some s → s ≠ "" →
      (store_fact st graphOk fact source related now).meta0 "source"
        = some (Val.str s)) ∧
    (source = none ∨ source = some "" →
      (store_fact st graphOk fact source related now).meta0 "source"
        = some (Val.str "agent")) ∧
    (store_fact st graphOk fact source related now).meta0 "timestamp"
      = some (Val.str now) ∧
    (graphOk = true → st.nextId ≠ 0 →
      (store_fact st graphOk fact source related now).meta0 "graph_id"
          = some (Val.str (toString st.nextId)) ∧
      (store_fact st graphOk fact source related now).req.ids
          = [some ("fact_" ++ toString st.nextId)]) ∧
    (graphOk = true → st.nextId = 0 →
      (store_fact st graphOk fact source related now).meta0 "graph_id"
          = some Val.null ∧
      (store_fact st graphOk fact source related now).req.ids = [none]) := by
  have hsrc : (store_fact st graphOk fact source related now).meta0 "source"
      = some (Val.str (orAgent source)) := by
    cases graphOk <;> rfl
  refine ⟨?_, ?_, ?_, ?_, ?_, ?_, ?_, ?_⟩
  · cases graphOk <;> rfl
  · cases graphOk <;> rfl
  · cases graphOk <;> rfl
  · intro s hs hne
    rw [hsrc, hs]
    simp [orAgent, hne]
  · rintro (h | h) <;> (subst h; rw [hsrc]) <;> rfl
  · cases graphOk <;> rfl
  · intro hg hz
    subst hg
    exact ⟨by simp [store_fact, StoreFactResult.meta0, List.lookup, hz, createNode],
           by simp [store_fact, hz, createNode]⟩
  · intro hg hz
    subst hg
    exact ⟨by simp [store_fact, StoreFactResult.meta0, List.lookup, hz, createNode],
           by simp [store_fact, hz, createNode]⟩

/-- Witness for C6 (amended) at a store whose next free id is 1, with
graph creation succeeding and source `"test"`; the inner implications
are discharged at their concrete instances by the theorem itself. -/
theorem claim6_store_fact_amended_witness :
    (store_fact ⟨[], [], 1⟩ true "a fact" (some "test") none "t1").ret
      = (if true then some (1 : Nat) else none) ∧
    (store_fact ⟨[], [], 1⟩ true "a fact" (some "test") none "t1").req.documents
      = ["a fact"] ∧
    (store_fact ⟨[], [], 1⟩ true "a fact" (some "test") none "t1").meta0 "type"
      = some (Val.str "fact") ∧
    (∀ s : String, (some "test" : Option String) = some s → s ≠ "" →
      (store_fact ⟨[], [], 1⟩ true "a fact" (some "test") none "t1").meta0 "source"
        = some (Val.str s)) ∧
    ((some "test" : Option String) = none ∨ (some "test" : Option String) = some "" →
      (store_fact ⟨[], [], 1⟩ true "a fact" (some "test") none "t1").meta0 "source"
        = some (Val.str "agent")) ∧
    (store_fact ⟨[], [], 1⟩ true "a fact" (some "test") none "t1").meta0 "timestamp"
      = some (Val.str "t1") ∧
    (true = true → (1 : Nat) ≠ 0 →
      (store_fact ⟨[], [], 1⟩ true "a fact" (some "test") none "t1").meta0 "graph_id"
          = some (Val.str (toString (1 : Nat))) ∧
      (store_fact ⟨[], [], 1⟩ true "a fact" (some "test") none "t1").req.ids
          = [some ("fact_" ++ toString (1 : Nat))]) ∧
    (true = true → (1 : Nat) = 0 →
      (store_fact ⟨[], [], 1⟩ true "a fact" (some "test") none "t1").meta0 "graph_id"
          = some Val.null ∧
      (store_fact ⟨[], [], 1⟩ true "a fact" (some "test") none "t1").req.ids
          = [none]) :=
  claim6_store_fact_amended ⟨[], [], 1⟩ true "a fact" (some "test") none "t1"

/-- Enhancement returns exactly one record per hit when it does not
raise. -/
theorem enhanceAll_ok_length (gst : GraphState) :
    ∀ (hits : List QHit) (rs : List Rec),
      enhanceAll gst hits = .ok rs → rs.length = hits.length := by
  intro hits
  induction hits with
  | nil => intro rs h; cases h; rfl
  | cons h t ih =>
      intro rs hok
      unfold enhanceAll at hok
      cases he : enhance gst h with
      | error e => rw [he] at hok; cases hok
      | ok r =>
          rw [he] at hok
          cases ht : enhanceAll gst t with
          | error e => rw [ht] at hok; cases hok
          | ok rs' =>
              rw [ht] at hok
              cases hok
              simp [ih rs' ht]

/-- A record cannot sit in both buckets: the `fact` test excludes the
`conversation` test. -/
theorem isFactRec_not_isConvRec (m : Rec) :
    isFactRec m = true → isConvRec m = false := by
  unfold isFactRec isConvRec
  intro h
  rw [beq_iff_eq] at h
  rw [h]
  decide

/-- The categorisation loop, characterised as the pair of filters by
bucket predicate. -/
theorem categorize_foldl_eq_filter (ms : List Rec) (acc : List Rec × List Rec) :
    ms.foldl categorizeStep acc
      = (acc.1 ++ ms.filter isFactRec, acc.2 ++ ms.filter isConvRec) := by
  induction ms generalizing acc with
  | nil => simp
  | cons m t ih =>
      by_cases hf : isFactRec m = true
      · have hc := isFactRec_not_isConvRec m hf
        simp only [List.foldl_cons, List.filter_cons, hf, hc, if_pos, Bool.false_eq_true,
          if_false, ih, categorizeStep]
        rw [if_pos (by simpa [isFactRec] using hf)]
        simp [List.append_assoc]
      · by_cases hc : isConvRec m = true
        · simp only [List.foldl_cons, List.filter_cons, hc, if_pos,
            (by simpa using hf : isFactRec m = false), Bool.false_eq_true, if_false, ih,
            categorizeStep]
          rw [if_neg (by simpa [isFactRec] using hf),
            if_pos (by simpa [isConvRec] using hc)]
          simp [List.append_assoc]
        · simp only [List.foldl_cons, List.filter_cons,
            (by simpa using hf : isFactRec m = false),
            (by simpa using hc : isConvRec m = false), Bool.false_eq_true, if_false, ih,
            categorizeStep]
          rw [if_neg (by simpa [isFactRec] using hf),
            if_neg (by simpa [isConvRec] using hc)]

/-- Two mutually exclusive filters never keep more than the whole
list. -/
theorem exclusive_filter_length_le {α : Type} (p q : α → Bool)
    (hpq : ∀ a, p a = true → q a = false) :
    ∀ l : List α, (l.filter p).length + (l.filter q).length ≤ l.length := by
  intro l
  induction l with
  | nil => simp
  | cons a t ih =>
      by_cases hp : p a = true
      · have hq := hpq a hp
        simp only [List.filter_cons, hp, if_pos, hq, Bool.false_eq_true, if_false,
          List.length_cons]
        omega
      · by_cases hq : q a = true
        · simp only [List.filter_cons, (by simpa using hp : p a = false), hq,
            Bool.false_eq_true, if_false, if_pos, List.length_cons]
          omega
        · simp only [List.filter_cons, (by simpa using hp : p a = false),
            (by simpa using hq : q a = false), Bool.false_eq_true, if_false,
            List.length_cons]
          omega

/-- C5 (counterexample): on a store whose similarity search returns
one hit whose metadata type is `"entity"`, `categorize_memories`
returns two empty buckets while `retrieve_relevant_memories` returns
that hit, so the union of the buckets is not the original result
set. -/
theorem claim5_categorize_counterexample :
    retrieve_relevant_memories true GraphState.empty vqEntityOnly "q" 10
      = .ok [⟨entityHit, none, none⟩] ∧
    categorize_memories true GraphState.empty vqEntityOnly "q" = .ok ([], []) ∧
    (⟨entityHit, none, none⟩ : Rec) ∉ (([] : List Rec) ++ ([] : List Rec)) := by
  refine ⟨rfl, rfl, by simp⟩

/-- C5 (amended): `categorize_memories(q)` partitions the result of
`retrieve_relevant_memories(q, limit=10)` into exactly two buckets by
the metadata type field, `facts` and `conversations`; their combined
size never exceeds 10 (given the vector store honours `n_results`),
and their union, as a set, equals the subset of the original results
whose type is `"fact"` or `"conversation"` — results with any other
type are dropped. -/
theorem claim5_categorize_amended (gst : GraphState)
    (vq : String → Nat → List QHit) (query : String) (ms : List Rec)
    (hB : ∀ s n, (vq s n).length ≤ n)
    (hOk : retrieve_relevant_memories true gst vq query 10 = .ok ms) :
    categorize_memories true gst vq query
      = .ok (ms.filter isFactRec, ms.filter isConvRec) ∧
    (ms.filter isFactRec).length + (ms.filter isConvRec).length ≤ 10 ∧
    (∀ m : Rec, (m ∈ ms.filter isFactRec ∨ m ∈ ms.filter isConvRec) ↔
      (m ∈ ms ∧ (isFactRec m = true ∨ isConvRec m = true))) := by
  refine ⟨?_, ?_, ?_⟩
  · unfold categorize_memories
    rw [hOk]
    simp [categorize_foldl_eq_filter]
  · have hlen : ms.length = (vq query 10).length := by
      have := enhanceAll_ok_length gst (vq query 10) ms
        (by simpa [retrieve_relevant_memories] using hOk)
      exact this
    calc (ms.filter isFactRec).length + (ms.filter isConvRec).length
        ≤ ms.length := exclusive_filter_length_le _ _ isFactRec_not_isConvRec ms
      _ = (vq query 10).length := hlen
      _ ≤ 10 := hB query 10
  · intro m
    constructor
    · rintro (hm | hm)
      · rcases List.mem_filter.mp hm with ⟨h1, h2⟩
        exact ⟨h1, Or.inl h2⟩
      · rcases List.mem_filter.mp hm with ⟨h1, h2⟩
        exact ⟨h1, Or.inr h2⟩
    · rintro ⟨h1, h2 | h2⟩
      · exact Or.inl (List.mem_filter.mpr ⟨h1, h2⟩)
      · exact Or.inr (List.mem_filter.mpr ⟨h1, h2⟩)

/-- Witness for C5 (amended) with an empty store and a similarity
oracle returning no hits. -/
theorem claim5_categorize_amended_witness :
    (∀ s n, ((fun (_ : String) (_ : Nat) => ([] : List QHit)) s n).length ≤ n) ∧
    retrieve_relevant_memories true GraphState.empty
      (fun _ _ => ([] : List QHit)) "q" 10 = .ok ([] : List Rec) ∧
    (categorize_memories true GraphState.empty (fun _ _ => ([] : List QHit)) "q"
      = .ok (([] : List Rec).filter isFactRec, ([] : List Rec).filter isConvRec) ∧
    (([] : List Rec).filter isFactRec).length
      + (([] : List Rec).filter isConvRec).length ≤ 10 ∧
    (∀ m : Rec, (m ∈ ([] : List Rec).filter isFactRec
        ∨ m ∈ ([] : List Rec).filter isConvRec) ↔
      (m ∈ ([] : List Rec) ∧ (isFactRec m = true ∨ isConvRec m = true)))) :=
  ⟨fun _ n => Nat.zero_le n, rfl,
   claim5_categorize_amended GraphState.empty (fun _ _ => []) "q" []
     (fun _ n => Nat.zero_le n) rfl⟩

/-- The `order` property of a created message node is its zero-based
position. -/
theorem msgNode_orderVal (now : String) (i id : Nat) (m : MsgIn) :
    (msgNode now i id m).orderVal = i := rfl

/-- The `role` property of a created message node. -/
theorem msgNode_role (now : String) (i id : Nat) (m : MsgIn) :
    (msgNode now i id m).prop "role" = some (Val.str m.roleD) := rfl

/-- The `content` property of a created message node. -/
theorem msgNode_content (now : String) (i id : Nat) (m : MsgIn) :
    (msgNode now i id m).prop "content" = some (Val.str m.contentD) := rfl

/-- The shape of the graph after the message loop of
`store_conversation`, when the conversation node id is truthy
(nonzero) and message ids start at or above 1: the message nodes are
appended in input order with consecutive ids and orders, one
`CONTAINS` relationship each. -/
theorem foldl_storeMsgStep (cid : Nat) (now : String) (hcid : cid ≠ 0) :
    ∀ (ms : List MsgIn) (i : Nat) (st1 : GraphState), 1 ≤ st1.nextId →
      (pyEnumerate i ms).foldl (storeMsgStep cid now) st1
        = ⟨st1.nodes ++ msgNodesFrom now i st1.nextId ms,
           st1.rels ++ msgRelsFrom cid st1.nextId ms,
           st1.nextId + ms.length⟩ := by
  intro ms
  induction ms with
  | nil => intro i st1 _; simp [pyEnumerate, msgNodesFrom, msgRelsFrom]
  | cons m t ih =>
      intro i st1 h1
      have hne : st1.nextId ≠ 0 := by omega
      have hguard : st1.nextId ≠ 0 ∧ cid ≠ 0 := ⟨hne, hcid⟩
      have hstep : storeMsgStep cid now st1 (i, m)
          = ⟨st1.nodes ++ [msgNode now i st1.nextId m],
             st1.rels ++ [⟨cid, st1.nextId, "CONTAINS"⟩], st1.nextId + 1⟩ := by
        simp only [storeMsgStep, createNode]
        rw [if_pos hguard]
        rfl
      have ihs := ih (i + 1)
        ⟨st1.nodes ++ [msgNode now i st1.nextId m],
         st1.rels ++ [⟨cid, st1.nextId, "CONTAINS"⟩], st1.nextId + 1⟩
        (by exact Nat.succ_le_succ (Nat.zero_le st1.nextId))
      rw [show pyEnumerate i (m :: t) = (i, m) :: pyEnumerate (i + 1) t from rfl,
        List.foldl_cons, hstep, ihs]
      simp only [msgNodesFrom, msgRelsFrom, GraphState.mk.injEq, List.append_assoc,
        List.singleton_append, List.length_cons]
      refine ⟨trivial, trivial, by omega⟩

/-- Every relationship created by the message loop starts at the
conversation node and ends at a message id at or above the starting
id. -/
theorem msgRelsFrom_src_dst (cid : Nat) :
    ∀ (ms : List MsgIn) (id : Nat) (r : GRel),
      r ∈ msgRelsFrom cid id ms → id ≤ r.dst ∧ r.src = cid := by
  intro ms
  induction ms with
  | nil => intro id r h; cases h
  | cons m t ih =>
      intro id r h
      rcases (by simpa [msgRelsFrom] using h :
          r = (⟨cid, id, "CONTAINS"⟩ : GRel) ∨ r ∈ msgRelsFrom cid (id + 1) t) with
        h1 | h1
      · subst h1; exact ⟨Nat.le_refl _, rfl⟩
      · obtain ⟨h2, h3⟩ := ih (id + 1) r h1
        exact ⟨by omega, h3⟩

/-- When every `CONTAINS` relationship of the message loop is present,
the traversal filter keeps every created message node. -/
theorem filter_msgNodesFrom (cid : Nat) (now : String) :
    ∀ (ms : List MsgIn) (i id : Nat) (rels : List GRel),
      (∀ r ∈ msgRelsFrom cid id ms, r ∈ rels) →
      (msgNodesFrom now i id ms).filter (fun n =>
          n.labels.contains "Message" && hasContains rels cid n.id)
        = msgNodesFrom now i id ms := by
  intro ms
  induction ms with
  | nil => intro i id rels _; rfl
  | cons m t ih =>
      intro i id rels hsub
      have hhead : hasContains rels cid id = true := by
        rw [hasContains, List.any_eq_true]
        exact ⟨⟨cid, id, "CONTAINS"⟩, hsub _ (by simp [msgRelsFrom]), by simp⟩
      have htail := ih (i + 1) (id + 1) rels
        (fun r hr => hsub r (by simp [msgRelsFrom]; exact Or.inr hr))
      have hcond : ((msgNode now i id m).labels.contains "Message" &&
          hasContains rels cid (msgNode now i id m).id) = true := by
        simp [msgNode, hhead]
      rw [show msgNodesFrom now i id (m :: t)
            = msgNode now i id m :: msgNodesFrom now (i + 1) (id + 1) t from rfl,
        List.filter_cons, if_pos hcond, htail]

/-- Inserting a node whose order is at most every order in the list
puts it in front. -/
theorem insertByOrder_le_head (n : GNode) (now : String) (i id : Nat)
    (ms : List MsgIn) (h : n.orderVal ≤ i) :
    insertByOrder n (msgNodesFrom now i id ms) = n :: msgNodesFrom now i id ms := by
  cases ms with
  | nil => rfl
  | cons m t =>
      simp only [msgNodesFrom, insertByOrder, msgNode_orderVal]
      rw [if_pos h]

/-- The created message nodes are already sorted by their `order`
property, so the traversal sort leaves them unchanged. -/
theorem sortByOrder_msgNodesFrom (now : String) :
    ∀ (ms : List MsgIn) (i id : Nat),
      sortByOrder (msgNodesFrom now i id ms) = msgNodesFrom now i id ms := by
  intro ms
  induction ms with
  | nil => intro i id; rfl
  | cons m t ih =>
      intro i id
      simp only [msgNodesFrom, sortByOrder, ih]
      exact insertByOrder_le_head _ now (i + 1) (id + 1) t
        (by simp [msgNode_orderVal])

/-- Projecting role, content and order out of the created message
nodes recovers the enumerated input messages. -/
theorem map_msgNodesFrom (now : String) :
    ∀ (ms : List MsgIn) (i id : Nat),
      (msgNodesFrom now i id ms).map
          (fun n => (n.prop "role", n.prop "content", n.orderVal))
        = (pyEnumerate i ms).map (fun im =>
            (some (Val.str im.2.roleD), some (Val.str im.2.contentD), im.1)) := by
  intro ms
  induction ms with
  | nil => intro i id; rfl
  | cons m t ih =>
      intro i id
      simp only [msgNodesFrom, pyEnumerate, List.map_cons, ih,
        msgNode_role, msgNode_content, msgNode_orderVal]

/-- C7 (amended): from any well-formed graph (node ids and
relationship sources below the next free id) whose next free id is
nonzero — so the `Conversation` node receives a truthy id — storing a
conversation creates one `Message` node per input message whose
`order` property is its zero-based position, linked via `CONTAINS`,
and the ordered traversal
`MATCH (c:Conversation)-[:CONTAINS]->(m:Message) ... ORDER BY m.order`
from that conversation returns nodes whose role, content and order
reproduce the enumerated input sequence exactly.  (On a fresh store
the conversation node gets falsy id 0 and the guard at memory.py line
130 skips every link; see the counterexample.) -/
theorem claim7_conversation_roundtrip (st : GraphState) (messages : List MsgIn)
    (context : Option String) (metadata : Metadata) (now : String)
    (hN : ∀ n ∈ st.nodes, n.id < st.nextId)
    (hR : ∀ r ∈ st.rels, r.src < st.nextId)
    (hz : st.nextId ≠ 0) :
    (containsMessagesOrdered
        (storeConversationGraph st messages context metadata now).1
        (storeConversationGraph st messages context metadata now).2).map
      (fun n => (n.prop "role", n.prop "content", n.orderVal))
    = (pyEnumerate 0 messages).map (fun im =>
        (some (Val.str im.2.roleD), some (Val.str im.2.contentD), im.1)) := by
  have hconv :
      storeConversationGraph st messages context metadata now
        = ((pyEnumerate 0 messages).foldl (storeMsgStep st.nextId now)
            ⟨st.nodes ++ [⟨st.nextId, ["Conversation"],
              [("timestamp", .str now), ("context", .str (context.getD ""))]
                ++ metadata⟩], st.rels, st.nextId + 1⟩,
           st.nextId) := rfl
  have hfold := foldl_storeMsgStep st.nextId now hz messages 0
    ⟨st.nodes ++ [⟨st.nextId, ["Conversation"],
        [("timestamp", Val.str now), ("context", Val.str (context.getD ""))]
          ++ metadata⟩], st.rels, st.nextId + 1⟩
    (Nat.succ_le_succ (Nat.zero_le st.nextId))
  rw [hconv, hfold]
  set convNode : GNode :=
    ⟨st.nextId, ["Conversation"],
     [("timestamp", .str now), ("context", .str (context.getD ""))] ++ metadata⟩
    with hconvNode
  set rels' : List GRel :=
    st.rels ++ msgRelsFrom st.nextId (st.nextId + 1) messages with hrels
  rw [containsMessagesOrdered]
  have hguard :
      ((st.nodes ++ [convNode]) ++ msgNodesFrom now 0 (st.nextId + 1) messages).any
        (fun c => c.id == st.nextId && c.labels.contains "Conversation") = true := by
    rw [List.any_eq_true]
    refine ⟨convNode, ?_, by simp [hconvNode]⟩
    exact List.mem_append_left _ (List.mem_append_right _ (by simp))
  rw [if_pos hguard]
  rw [List.filter_append, List.filter_append]
  have hold : st.nodes.filter (fun n =>
      n.labels.contains "Message" && hasContains rels' st.nextId n.id) = [] := by
    rw [List.filter_eq_nil_iff]
    intro n hn
    have hnid := hN n hn
    have hnoRel : hasContains rels' st.nextId n.id = false := by
      rw [hasContains, List.any_eq_false]
      intro r hr
      rcases List.mem_append.mp hr with h1 | h1
      · have := hR r h1
        intro hcontra
        simp only [Bool.and_eq_true, beq_iff_eq] at hcontra
        omega
      · have := (msgRelsFrom_src_dst st.nextId messages (st.nextId + 1) r h1).1
        intro hcontra
        simp only [Bool.and_eq_true, beq_iff_eq] at hcontra
        omega
    simp [hnoRel]
  have hconvFilter : [convNode].filter (fun n =>
      n.labels.contains "Message" && hasContains rels' st.nextId n.id) = [] := by
    simp [hconvNode]
  have hmsgs := filter_msgNodesFrom st.nextId now messages 0 (st.nextId + 1) rels'
    (fun r hr => List.mem_append_right _ hr)
  rw [hold, hconvFilter, hmsgs]
  simp only [List.nil_append]
  rw [sortByOrder_msgNodesFrom, map_msgNodesFrom]

/-- C7 (counterexample): on a fresh store the `Conversation` node
receives id 0, which the guard
`if message_node_id and conversation_node_id:` (memory.py line 130)
treats as falsy, so no `CONTAINS` relationship is created and the
ordered traversal of a freshly stored two-message conversation
returns nothing, while the round trip the claim asserts would be the
two enumerated messages. -/
theorem claim7_fresh_store_counterexample :
    (containsMessagesOrdered
        (storeConversationGraph GraphState.empty msgsFixture none [] "t").1
        (storeConversationGraph GraphState.empty msgsFixture none [] "t").2).map
      (fun n => (n.prop "role", n.prop "content", n.orderVal)) = [] ∧
    (pyEnumerate 0 msgsFixture).map (fun im =>
        (some (Val.str im.2.roleD), some (Val.str im.2.contentD), im.1)) ≠ [] := by
  refine ⟨?_, ?_⟩ <;> decide

/-- Witness for C7 (amended): a graph whose next free id is 1 and a
two-message conversation. -/
theorem claim7_conversation_roundtrip_witness :
    (∀ n ∈ (⟨[], [], 1⟩ : GraphState).nodes, n.id < (⟨[], [], 1⟩ : GraphState).nextId) ∧
    (∀ r ∈ (⟨[], [], 1⟩ : GraphState).rels, r.src < (⟨[], [], 1⟩ : GraphState).nextId) ∧
    (⟨[], [], 1⟩ : GraphState).nextId ≠ 0 ∧
    (containsMessagesOrdered
        (storeConversationGraph ⟨[], [], 1⟩ msgsFixture none [] "t").1
        (storeConversationGraph ⟨[], [], 1⟩ msgsFixture none [] "t").2).map
      (fun n => (n.prop "role", n.prop "content", n.orderVal))
    = (pyEnumerate 0 msgsFixture).map (fun im =>
        (some (Val.str im.2.roleD), some (Val.str im.2.contentD), im.1)) :=
  ⟨by decide, by decide, by decide,
   claim7_conversation_roundtrip ⟨[], [], 1⟩ msgsFixture none [] "t"
     (by decide) (by decide) (by decide)⟩

end OpenManus
